import Mathlib

/-!
Shallow embedding of the claims-explorer dashboard (`src/app.py`) and proofs
of the specification's claims about it.

The program is a sequential render pass: a three-stage cascading selector
(catalog → schema → table) over a SQL warehouse, followed by nine analytics
panels computed by SQL aggregation over the selected table.  We embed:

* the in-memory list filtering and default-selection logic of the selector
  (lines 76-123 of `app.py`), including the halting (`st.stop`) behaviour;
* the SQL strings the pass issues and, for the analytics queries, their
  result semantics over an explicit table of rows (the SQL engine itself is
  an external collaborator; its aggregate semantics follow the spec's
  description in §4.3, e.g. division by the unfiltered total raising a
  query-execution error on a zero-row table);
* the per-panel rendering (placeholder on empty result versus widget),
  as a trace of render events.

Machine floats in the source carry exact decimal values in every scenario
the claims touch, so charges and rates are embedded as rationals.
-/

namespace PayerApp

/-- Python `str.lower()` on the character-list model of a string:
`catalog_filter.lower()` etc. in `app.py` lines 84, 101, 118. -/
def pyLower (s : String) : String := ⟨s.data.map Char.toLower⟩

/-- Decides whether `needle` is an initial segment of `hay`
(character-list model). -/
def leadsList : List Char → List Char → Bool
  | [], _ => true
  | _ :: _, [] => false
  | a :: as, b :: bs => a == b && leadsList as bs

/-- Decides whether `needle` occurs contiguously inside `hay`: the semantics
of Python's `needle in hay` on strings, used by every selector filter. -/
def occursIn (needle : List Char) : List Char → Bool
  | [] => leadsList needle []
  | b :: bs => leadsList needle (b :: bs) || occursIn needle bs

/-- Python `needle in hay` for strings. -/
def strContainsB (hay needle : String) : Bool := occursIn needle.data hay.data

/-- The selector-stage filter: `[c for c in candidates if filt.lower() in c.lower()]`
(`app.py` lines 84, 101, 118). -/
def filterCandidates (filt : String) (candidates : List String) : List String :=
  candidates.filter (fun c => strContainsB (pyLower c) (pyLower filt))

theorem leadsList_iff (n h : List Char) :
    leadsList n h = true ↔ ∃ t, h = n ++ t := by
  induction n generalizing h with
  | nil => simp [leadsList]
  | cons a as ih =>
    cases h with
    | nil =>
      simp [leadsList]
    | cons b bs =>
      simp only [leadsList, Bool.and_eq_true, beq_iff_eq, ih, List.cons_append,
        List.cons.injEq]
      constructor
      · rintro ⟨rfl, t, rfl⟩
        exact ⟨t, rfl, rfl⟩
      · rintro ⟨t, rfl, rfl⟩
        exact ⟨rfl, t, rfl⟩

theorem occursIn_iff (n h : List Char) :
    occursIn n h = true ↔ ∃ s t, h = s ++ n ++ t := by
  induction h with
  | nil =>
    simp only [occursIn, leadsList_iff]
    constructor
    · rintro ⟨t, ht⟩
      exact ⟨[], t, by simpa using ht⟩
    · rintro ⟨s, t, ht⟩
      have hs : s = [] ∧ n ++ t = [] := by
        constructor
        · cases s with
          | nil => rfl
          | cons x xs => simp at ht
        · cases s with
          | nil => simpa using ht.symm
          | cons x xs => simp at ht
      exact ⟨t, by simp [hs.2]⟩
  | cons b bs ih =>
    simp only [occursIn, Bool.or_eq_true, leadsList_iff, ih]
    constructor
    · rintro (⟨t, ht⟩ | ⟨s, t, ht⟩)
      · exact ⟨[], t, by simpa using ht⟩
      · exact ⟨b :: s, t, by simp [ht]⟩
    · rintro ⟨s, t, ht⟩
      cases s with
      | nil =>
        exact Or.inl ⟨t, by simpa using ht⟩
      | cons x xs =>
        simp only [List.cons_append, List.cons.injEq] at ht
        exact Or.inr ⟨xs, t, by simp [ht.2]⟩

theorem occursIn_nil_needle (h : List Char) : occursIn [] h = true := by
  cases h <;> simp [occursIn, leadsList]

/-- C1: the selector filter keeps exactly the candidates whose lowered name
contains the lowered filter string as a contiguous substring, and the empty
filter keeps every candidate. -/
theorem c1_filter_is_case_insensitive_containment
    (candidates : List String) (filt : String)
    (hne : candidates ≠ []) :
    (∀ c, c ∈ filterCandidates filt candidates ↔
      c ∈ candidates ∧
        ∃ s t, (pyLower c).data = s ++ (pyLower filt).data ++ t) ∧
    filterCandidates "" candidates = candidates := by
  refine ⟨fun c => ?_, ?_⟩
  · simp only [filterCandidates, List.mem_filter, strContainsB, occursIn_iff]
  · simp only [filterCandidates, List.filter_eq_self]
    intro c _
    exact occursIn_nil_needle _

/-- Witness for C1, Scenario 1 of the spec: candidates `["sales", "claims_db"]`
with the empty filter are all kept, and `"claims_db"` passes the filter `"cla"`. -/
theorem c1_filter_is_case_insensitive_containment_witness :
    filterCandidates "" ["sales", "claims_db"] = ["sales", "claims_db"] ∧
    "claims_db" ∈ filterCandidates "cla" ["sales", "claims_db"] :=
  ⟨(c1_filter_is_case_insensitive_containment ["sales", "claims_db"] ""
      (by decide)).2,
   ((c1_filter_is_case_insensitive_containment ["sales", "claims_db"] "cla"
      (by decide)).1 "claims_db").mpr
     ⟨by decide, ⟨"".data, "ims_db".data, by decide⟩⟩⟩

/-- Index of the first occurrence of `a`, as Python `list.index` /
pandas column lookup use it; returns the length when absent (call sites
guard membership, mirroring the source). -/
def idxOfStr (a : String) : List String → Nat
  | [] => 0
  | b :: t => if a = b then 0 else idxOfStr a t + 1

theorem idxOfStr_getD (a d : String) (l : List String) (h : a ∈ l) :
    l.getD (idxOfStr a l) d = a := by
  induction l with
  | nil => cases h
  | cons b t ih =>
    by_cases hab : a = b
    · simp [idxOfStr, hab]
    · have hmem : a ∈ t := by
        cases h with
        | head => exact absurd rfl hab
        | tail _ h' => exact h'
      simp only [idxOfStr, if_neg hab, List.getD_cons_succ]
      exact ih hmem

/-- The table-candidate column choice of `app.py` line 115:
`"tableName" if "tableName" in tables_df.columns else tables_df.columns[1]`.
The positional access raises `IndexError` in Python when fewer than two
columns exist, embedded here as `none`. -/
def tcol (cols : List String) : Option String :=
  if "tableName" ∈ cols then some "tableName" else cols[1]?

/-- The table stage's default index, `app.py` line 122:
`filtered_tables.index("claims_enriched") if "claims_enriched" in filtered_tables else 0`. -/
def default_idx (l : List String) : Nat :=
  if "claims_enriched" ∈ l then idxOfStr "claims_enriched" l else 0

/-- The value a select box shows: the stored session choice when it is still
among the options, otherwise the option at the default index. -/
def selectboxVal (options : List String) (idx : Nat) (stored : Option String) :
    String :=
  match stored with
  | some v => if v ∈ options then v else options.getD idx ""
  | none => options.getD idx ""

/-- The table select box's default selection: the option the widget shows
when the session holds no previous choice (`app.py` line 123 with
`index=default_idx`). -/
def defaultSelection (l : List String) : String :=
  selectboxVal l (default_idx l) none

/-- C2: the table stage's default selection is `"claims_enriched"` whenever
that string is in the filtered list, at any position; otherwise it is the
first element of the filtered list. -/
theorem c2_default_selection_law (l : List String) :
    ("claims_enriched" ∈ l → defaultSelection l = "claims_enriched") ∧
    (∀ h : l ≠ [], "claims_enriched" ∉ l → defaultSelection l = l.head h) := by
  constructor
  · intro hmem
    simp only [defaultSelection, selectboxVal, default_idx, if_pos hmem]
    exact idxOfStr_getD _ _ _ hmem
  · intro h hnot
    simp only [defaultSelection, selectboxVal, default_idx, if_neg hnot]
    cases l with
    | nil => exact absurd rfl h
    | cons a t => rfl

/-- Witness for C2: `"claims_enriched"` is pre-selected from position 1
of `["claims_raw", "claims_enriched"]`, and a list without it defaults to
its first element. -/
theorem c2_default_selection_law_witness :
    defaultSelection ["claims_raw", "claims_enriched"] = "claims_enriched" ∧
    defaultSelection ["sales_a", "sales_b"] = "sales_a" :=
  ⟨(c2_default_selection_law ["claims_raw", "claims_enriched"]).1 (by decide),
   (c2_default_selection_law ["sales_a", "sales_b"]).2 (by decide) (by decide)⟩

/-- C6: the candidate column is `"tableName"` exactly when that name is
present, and exactly when it is absent the column at positional index 1 is
used. -/
theorem c6_table_column_lookup (cols : List String) (c : String) :
    tcol cols = some c ↔
      ("tableName" ∈ cols ∧ c = "tableName") ∨
      ("tableName" ∉ cols ∧ cols[1]? = some c) := by
  by_cases hmem : "tableName" ∈ cols
  · simp [tcol, hmem, eq_comm]
  · simp [tcol, hmem]

/-- C10: when no `"tableName"` column exists, the positional fallback
succeeds exactly when there are at least two columns; with fewer it fails
instead of producing a candidate column. -/
theorem c10_positional_fallback_two_columns (cols : List String)
    (habs : "tableName" ∉ cols) :
    ((tcol cols).isSome ↔ 2 ≤ cols.length) ∧
    (cols.length < 2 → tcol cols = none) := by
  constructor
  · simp only [tcol, if_neg habs, Option.isSome_iff_exists, getElem?_def]
    constructor
    · rintro ⟨a, ha⟩
      split at ha
      · omega
      · exact absurd ha (by simp)
    · intro hlen
      have h1 : 1 < cols.length := hlen
      exact ⟨cols[1], by simp [h1]⟩
  · intro hlt
    simp only [tcol, if_neg habs]
    have : ¬ 1 < cols.length := by omega
    simp [getElem?_def, this]

/-- Witness for C10: a one-column metadata result without `tableName` gives
no candidate column, and a two-column one does. -/
theorem c10_positional_fallback_two_columns_witness :
    tcol ["database"] = none ∧ (tcol ["database", "name"]).isSome = true :=
  ⟨(c10_positional_fallback_two_columns ["database"] (by decide)).2 (by decide),
   ((c10_positional_fallback_two_columns ["database", "name"] (by decide)).1).mpr
     (by decide)⟩

/-- A row of the selected claims table, with the columns the analytics
queries touch.  `total_charge` is nullable (the KPI query coalesces it). -/
structure Row where
  claim_status : String
  total_charge : Option ℚ
  member_id : String
  provider_id : String
  provider_name : String
  diagnosis_desc : String
  claim_date : String
deriving DecidableEq

/-- A metadata query result (`SHOW CATALOGS` / `SHOW SCHEMAS` / `SHOW TABLES`):
named columns and rows of nullable string cells, as the pandas frame holds. -/
structure MetaDF where
  cols : List String
  rows : List (List (Option String))
deriving DecidableEq

/-- pandas `df.empty`: true when either axis has length zero. -/
def MetaDF.isEmpty (df : MetaDF) : Bool :=
  df.rows.isEmpty || df.cols.isEmpty

/-- pandas `df[c]`: the column named `c` as a list of nullable cells. -/
def MetaDF.col (df : MetaDF) (c : String) : List (Option String) :=
  df.rows.map (fun r => r.getD (idxOfStr c df.cols) none)

/-- `df[c].dropna().tolist()`. -/
def dropna (col : List (Option String)) : List String :=
  col.filterMap (fun x => x)

/-- The warehouse content one render pass observes: metadata results and,
per fully-qualified name, the rows of the table. -/
structure Warehouse where
  showCatalogs : MetaDF
  showSchemas : String → MetaDF
  showTables : String → String → MetaDF
  tableRows : String → List Row

/-- The widget state a render pass reads: the three filter texts and the
session-stored select-box choices. -/
structure SelectorState where
  catalog_filter : String
  catalog_choice : Option String
  schema_filter : String
  schema_choice : Option String
  table_filter : String
  table_choice : Option String

/-- One observable step of the render pass: a SQL string sent to the
warehouse, a widget constructed, a notice, or an uncaught exception that
ends the script. -/
inductive Event
  | query (sql : String)
  | textInput (key : String)
  | selectBox (key : String) (options : List String) (idx : Nat)
  | errorNotice (msg : String)
  | warningNotice (msg : String)
  | info (msg : String)
  | subheader (title : String)
  | markdown (text : String)
  | dataframeW (nrows : Nat)
  | metric (label : String)
  | barChart (x : String)
  | lineChart (index : List String)
  | exn (msg : String)
deriving DecidableEq

/-! ### Analytics query strings (`app.py` lines 132-251, whitespace
normalised to single spaces) -/

def previewSql (fqn : String) : String :=
  "SELECT * FROM " ++ fqn ++ " LIMIT 100"

def kpiSql (fqn : String) : String :=
  "SELECT COUNT(*) AS total_claims, SUM(COALESCE(total_charge, 0)) AS total_charges, COUNT(DISTINCT member_id) AS distinct_members, COUNT(DISTINCT provider_id) AS distinct_providers, SUM(CASE WHEN claim_status = 'denied' THEN 1 ELSE 0 END)/COUNT(*) AS denial_rate FROM "
    ++ fqn

def statusSql (fqn : String) : String :=
  "SELECT claim_status, COUNT(*) as n_claims FROM " ++ fqn
    ++ " GROUP BY claim_status"

def trendSql (fqn : String) : String :=
  "SELECT substr(claim_date,1,7) as month, SUM(total_charge) as charges, SUM(CASE WHEN claim_status='denied' THEN total_charge ELSE 0 END) as denied_amt FROM "
    ++ fqn ++ " GROUP BY month ORDER BY month"

def reasonsSql (fqn : String) : String :=
  "SELECT diagnosis_desc, COUNT(*) as denied_claims FROM " ++ fqn
    ++ " WHERE claim_status='denied' GROUP BY diagnosis_desc ORDER BY denied_claims DESC LIMIT 10"

def providerRateSql (fqn : String) : String :=
  "SELECT provider_name, SUM(CASE WHEN claim_status='denied' THEN 1 ELSE 0 END)/COUNT(*) as denial_rate, COUNT(*) as total FROM "
    ++ fqn ++ " GROUP BY provider_name HAVING total >= 3 ORDER BY denial_rate DESC LIMIT 10"

def diagSql (fqn : String) : String :=
  "SELECT diagnosis_desc, COUNT(*) as n_claims, SUM(total_charge) as charges FROM "
    ++ fqn ++ " GROUP BY diagnosis_desc ORDER BY charges DESC LIMIT 10"

def provSql (fqn : String) : String :=
  "SELECT provider_name, SUM(total_charge) as charges, COUNT(*) as n_claims FROM "
    ++ fqn ++ " GROUP BY provider_name ORDER BY charges DESC LIMIT 10"

def outlierSql (fqn : String) : String :=
  "SELECT * FROM " ++ fqn
    ++ " WHERE total_charge > ( SELECT AVG(total_charge) + 3*STDDEV(total_charge) FROM "
    ++ fqn ++ " ) ORDER BY total_charge DESC LIMIT 10"

/-! ### Analytics query semantics over the table's rows.  The SQL engine is
an external collaborator; these evaluators follow the engine behaviour the
spec describes in §4.3 (aggregates over the listed columns, `ORDER BY`,
`LIMIT`, and a query-execution error for the division by an unfiltered
total of zero). -/

/-- The distinct values of a list, first occurrences first, with `seen`
accumulating the values already emitted: `COUNT(DISTINCT _)` and the
`GROUP BY` key sets. -/
def dedupFrom (seen : List String) : List String → List String
  | [] => []
  | a :: t =>
    if a ∈ seen then dedupFrom seen t else a :: dedupFrom (a :: seen) t

/-- Distinct values of a list, in order of first appearance. -/
def distinct (l : List String) : List String := dedupFrom [] l

/-- Ordered insertion for an explicit Boolean comparator. -/
def insertAsc (le : α → α → Bool) (a : α) : List α → List α
  | [] => [a]
  | b :: t => if le a b then a :: b :: t else b :: insertAsc le a t

/-- Insertion sort for an explicit Boolean comparator: the `ORDER BY` of
the analytics queries. -/
def sortAsc (le : α → α → Bool) : List α → List α
  | [] => []
  | a :: t => insertAsc le a (sortAsc le t)

/-- Lexicographic comparison of character lists. -/
def charListLe : List Char → List Char → Bool
  | [], _ => true
  | _ :: _, [] => false
  | a :: as, b :: bs => if a = b then charListLe as bs else decide (a < b)

/-- Lexicographic string comparison: the `ORDER BY` collation on the
month key. -/
def strLeB (a b : String) : Bool := charListLe a.data b.data

/-- `SELECT * FROM fqn LIMIT 100`. -/
def evalPreview (rows : List Row) : List Row := rows.take 100

/-- Whether a row's status is the literal `'denied'`. -/
def isDenied (r : Row) : Bool := r.claim_status == "denied"

/-- The KPI denial rate: denied count over the unfiltered total. -/
def denialRate (rows : List Row) : ℚ :=
  ((rows.filter isDenied).length : ℚ) / (rows.length : ℚ)

/-- The single result row of the KPI aggregate. -/
structure KpiRow where
  total_claims : Nat
  total_charges : ℚ
  distinct_members : Nat
  distinct_providers : Nat
  denial_rate : ℚ
deriving DecidableEq

/-- The KPI aggregate: on a zero-row table the denominator `COUNT(*)` is
zero and the engine raises a query-execution error (spec §4.3); otherwise
one row of aggregates. -/
def evalKpi (rows : List Row) : Except String (List KpiRow) :=
  if rows.isEmpty then
    Except.error "QueryExecutionError: division by zero"
  else
    Except.ok [{
      total_claims := rows.length
      total_charges := (rows.map (fun r => r.total_charge.getD 0)).sum
      distinct_members := (distinct (rows.map Row.member_id)).length
      distinct_providers := (distinct (rows.map Row.provider_id)).length
      denial_rate := denialRate rows }]

/-- `GROUP BY claim_status` with counts. -/
def evalStatus (rows : List Row) : List (String × Nat) :=
  (distinct (rows.map Row.claim_status)).map
    (fun s => (s, (rows.filter (fun r => r.claim_status == s)).length))

/-- The month key `substr(claim_date,1,7)`. -/
def monthKey (r : Row) : String := ⟨r.claim_date.data.take 7⟩

/-- One row of the monthly-trend result. -/
structure TrendRow where
  month : String
  charges : ℚ
  denied_amt : ℚ
deriving DecidableEq

/-- The monthly-trend query: charge sums grouped by the month key,
ordered ascending by that key. -/
def monthlyTrend (rows : List Row) : List TrendRow :=
  (sortAsc strLeB (distinct (rows.map monthKey))).map
    (fun m =>
      let grp := rows.filter (fun r => monthKey r == m)
      { month := m
        charges := (grp.map (fun r => r.total_charge.getD 0)).sum
        denied_amt :=
          (grp.map (fun r =>
            if isDenied r then r.total_charge.getD 0 else 0)).sum })

/-- `trend_df.set_index("month")[["charges", "denied_amt"]]`: the indexed
two-series frame handed to the line chart, in the result's row order. -/
def chartSeries (df : List TrendRow) : List (String × ℚ × ℚ) :=
  df.map (fun r => (r.month, r.charges, r.denied_amt))

/-- Top-10 denial reasons: denied rows grouped by diagnosis, ordered by
descending count. -/
def evalReasons (rows : List Row) : List (String × Nat) :=
  let denied := rows.filter isDenied
  (sortAsc (fun a b => decide (b.2 ≤ a.2))
    ((distinct (denied.map Row.diagnosis_desc)).map
      (fun d => (d, (denied.filter (fun r => r.diagnosis_desc == d)).length)))).take 10

/-- Per-provider denial rate with the `HAVING total >= 3` guard, ordered by
descending rate, limited to 10. -/
def evalProviderRate (rows : List Row) : List (String × ℚ × Nat) :=
  (sortAsc (fun a b => decide (b.2.1 ≤ a.2.1))
    (((distinct (rows.map Row.provider_name)).map
      (fun p =>
        let grp := rows.filter (fun r => r.provider_name == p)
        (p, ((grp.filter isDenied).length : ℚ) / (grp.length : ℚ),
          grp.length))).filter
      (fun x => 3 ≤ x.2.2))).take 10

/-- Top-10 diagnoses by summed charge. -/
def evalDiag (rows : List Row) : List (String × Nat × ℚ) :=
  (sortAsc (fun a b => decide (b.2.2 ≤ a.2.2))
    ((distinct (rows.map Row.diagnosis_desc)).map
      (fun d =>
        let grp := rows.filter (fun r => r.diagnosis_desc == d)
        (d, grp.length, (grp.map (fun r => r.total_charge.getD 0)).sum)))).take 10

/-- Top-10 providers by summed charge. -/
def evalProv (rows : List Row) : List (String × ℚ × Nat) :=
  (sortAsc (fun a b => decide (b.2.1 ≤ a.2.1))
    ((distinct (rows.map Row.provider_name)).map
      (fun p =>
        let grp := rows.filter (fun r => r.provider_name == p)
        (p, (grp.map (fun r => r.total_charge.getD 0)).sum, grp.length)))).take 10

/-- Outlier rows: charge strictly above `mean + 3 * stddev` over the whole
table.  `c > m + 3*sqrt(v)` with `sqrt(v) ≥ 0` is decided by the equivalent
sign-and-square comparison; a table with fewer than two non-null charges has
a NULL standard deviation, so the comparison selects no rows. -/
def evalOutliers (rows : List Row) : List Row :=
  let charges := rows.filterMap Row.total_charge
  if charges.length < 2 then []
  else
    let n : ℚ := charges.length
    let mean := charges.sum / n
    let varSamp := (charges.map (fun c => (c - mean) ^ 2)).sum / (n - 1)
    (sortAsc
      (fun a b => decide (b.total_charge.getD 0 ≤ a.total_charge.getD 0))
      (rows.filter (fun r =>
        match r.total_charge with
        | none => false
        | some c => decide (0 < c - mean) && decide (9 * varSamp < (c - mean) ^ 2)))).take 10

/-! ### Panel rendering (`app.py` lines 133-256): each panel shows its
widget on a non-empty result and its own informational placeholder on an
empty one — except the KPI metrics row, which indexes row 0 of its result
unconditionally. -/

def previewPanel (df : List Row) : Event :=
  if df.isEmpty then .info "No data found." else .dataframeW df.length

/-- The KPI metrics row, `app.py` lines 149-154: every metric reads
`kpi[...][0]`, so an empty result raises (embedded as `Except.error`);
there is no placeholder branch. -/
def renderKpiRow (kpi : List KpiRow) : Except String (List Event) :=
  match kpi with
  | [] => Except.error "IndexError: index 0 out of bounds"
  | _ :: _ =>
    Except.ok [.metric "Total Claims", .metric "Total Charges",
      .metric "Unique Members", .metric "Unique Providers",
      .metric "Denial Rate"]

def statusPanel (df : List (String × Nat)) : Event :=
  if df.isEmpty then .info "No claims status data."
  else .barChart "claim_status"

def trendPanel (df : List TrendRow) : Event :=
  if df.isEmpty then .info "No trend data."
  else .lineChart ((chartSeries df).map (fun p => p.1))

def reasonsPanel (df : List (String × Nat)) : Event :=
  if df.isEmpty then .info "No denials by reason."
  else .barChart "diagnosis_desc"

def providerRatePanel (df : List (String × ℚ × Nat)) : Event :=
  if df.isEmpty then .info "No denial/provider data."
  else .barChart "provider_name"

def diagPanel (df : List (String × Nat × ℚ)) : Event :=
  if df.isEmpty then .info "No diagnoses data."
  else .barChart "diagnosis_desc"

def provPanel (df : List (String × ℚ × Nat)) : Event :=
  if df.isEmpty then .info "No provider data." else .dataframeW df.length

def outliersPanel (df : List Row) : Event :=
  if df.isEmpty then .info "No outlier claims found."
  else .dataframeW df.length

/-- The analytics section (`app.py` lines 128-256): preview, KPI row, then
the seven chart/table panels, in source order.  An error surfaced by a
query (or by the KPI row indexing) ends the pass at that point. -/
def renderAnalytics (w : Warehouse) (fqn : String) : List Event :=
  let rows := w.tableRows fqn
  let ev := [Event.subheader ("Data from " ++ fqn),
    Event.query (previewSql fqn),
    previewPanel (evalPreview rows),
    Event.query (kpiSql fqn)]
  match evalKpi rows with
  | Except.error e => ev ++ [.exn e]
  | Except.ok kres =>
    match renderKpiRow kres with
    | Except.error e => ev ++ [.exn e]
    | Except.ok kevs =>
      ev ++ kevs ++
        [.query (statusSql fqn), .markdown "#### Claims by Status",
          statusPanel (evalStatus rows),
          .query (trendSql fqn), .markdown "#### Monthly Charges & Denials",
          trendPanel (monthlyTrend rows),
          .query (reasonsSql fqn),
          .markdown "#### Top Denial Reasons (Diagnosis)",
          reasonsPanel (evalReasons rows),
          .query (providerRateSql fqn),
          .markdown "#### Providers with Highest Denial Rate",
          providerRatePanel (evalProviderRate rows),
          .query (diagSql fqn), .markdown "#### Top Diagnoses by Cost",
          diagPanel (evalDiag rows),
          .query (provSql fqn), .markdown "#### Top Providers by Total Charge",
          provPanel (evalProv rows),
          .markdown "#### Outlier High-Charge Claims",
          .query (outlierSql fqn),
          outliersPanel (evalOutliers rows)]

/-! ### The cascading selector stages (`app.py` lines 76-123).  Each stage
returns its trace of events and `some selection` to continue, or `none`
when it halted the pass (`st.stop`) or raised. -/

/-- Catalog stage, lines 76-88. -/
def catalogStage (w : Warehouse) (s : SelectorState) :
    List Event × Option String :=
  let df := w.showCatalogs
  if df.isEmpty then
    ([.query "SHOW CATALOGS",
      .errorNotice "No catalogs available; check permissions."], none)
  else
    let catalog_list := dropna (df.col (df.cols.getD 0 ""))
    let filtered := filterCandidates s.catalog_filter catalog_list
    if filtered.isEmpty then
      ([.query "SHOW CATALOGS", .textInput "catalog_filter",
        .warningNotice "No catalogs match."], none)
    else
      ([.query "SHOW CATALOGS", .textInput "catalog_filter",
        .selectBox "catalog_select" filtered 0],
       some (selectboxVal filtered 0 s.catalog_choice))

/-- Schema stage, lines 92-105, scoped to the selected catalog. -/
def schemaStage (w : Warehouse) (s : SelectorState) (cat : String) :
    List Event × Option String :=
  let df := w.showSchemas cat
  if df.isEmpty then
    ([.query ("SHOW SCHEMAS IN " ++ cat), .errorNotice "No schemas found."],
     none)
  else
    let schema_list := dropna (df.col (df.cols.getD 0 ""))
    let filtered := filterCandidates s.schema_filter schema_list
    if filtered.isEmpty then
      ([.query ("SHOW SCHEMAS IN " ++ cat), .textInput "schema_filter",
        .warningNotice "No schemas match."], none)
    else
      ([.query ("SHOW SCHEMAS IN " ++ cat), .textInput "schema_filter",
        .selectBox "schema_select" filtered 0],
       some (selectboxVal filtered 0 s.schema_choice))

/-- Table stage, lines 109-123, scoped to catalog and schema. -/
def tableStage (w : Warehouse) (s : SelectorState) (cat sch : String) :
    List Event × Option String :=
  let df := w.showTables cat sch
  if df.isEmpty then
    ([.query ("SHOW TABLES IN " ++ cat ++ "." ++ sch),
      .warningNotice "No tables in this schema."], none)
  else
    match tcol df.cols with
    | none =>
      ([.query ("SHOW TABLES IN " ++ cat ++ "." ++ sch),
        .exn "IndexError: single positional indexer is out-of-bounds"], none)
    | some c =>
      let table_list := dropna (df.col c)
      let filtered := filterCandidates s.table_filter table_list
      if filtered.isEmpty then
        ([.query ("SHOW TABLES IN " ++ cat ++ "." ++ sch),
          .textInput "table_filter", .warningNotice "No tables match."], none)
      else
        let idx := default_idx filtered
        ([.query ("SHOW TABLES IN " ++ cat ++ "." ++ sch),
          .textInput "table_filter", .selectBox "table_select" filtered idx],
         some (selectboxVal filtered idx s.table_choice))

/-- The whole render pass: the three selector stages in order (each later
stage guarded by Python truthiness of the previous selection), then the
analytics section over the fully-qualified name. -/
def renderPass (w : Warehouse) (s : SelectorState) : List Event :=
  match catalogStage w s with
  | (ev, none) => ev
  | (ev, some cat) =>
    if cat = "" then ev
    else
      match schemaStage w s cat with
      | (ev2, none) => ev ++ ev2
      | (ev2, some sch) =>
        if sch = "" then ev ++ ev2
        else
          match tableStage w s cat sch with
          | (ev3, none) => ev ++ ev2 ++ ev3
          | (ev3, some tbl) =>
            if tbl = "" then ev ++ ev2 ++ ev3
            else
              ev ++ ev2 ++ ev3 ++
                renderAnalytics w (cat ++ "." ++ sch ++ "." ++ tbl)

/-- The SQL strings a render pass sends, in order. -/
def queryLog (w : Warehouse) (s : SelectorState) : List String :=
  (renderPass w s).filterMap (fun e =>
    match e with
    | Event.query q => some q
    | _ => none)

theorem mem_insertAsc (le : α → α → Bool) (a x : α) (l : List α) :
    x ∈ insertAsc le a l ↔ x = a ∨ x ∈ l := by
  induction l with
  | nil => simp [insertAsc]
  | cons b t ih =>
    by_cases hab : le a b = true
    · simp [insertAsc, hab, List.mem_cons]
    · simp only [insertAsc, if_neg hab, List.mem_cons, ih]
      tauto

theorem sorted_insertAsc (le : α → α → Bool)
    (htot : ∀ a b, le a b = true ∨ le b a = true)
    (htrans : ∀ a b c, le a b = true → le b c = true → le a c = true)
    (a : α) (l : List α)
    (hs : List.Sorted (fun x y => le x y = true) l) :
    List.Sorted (fun x y => le x y = true) (insertAsc le a l) := by
  induction l with
  | nil => simp [insertAsc]
  | cons b t ih =>
    rw [List.sorted_cons] at hs
    by_cases hab : le a b = true
    · rw [insertAsc, if_pos hab, List.sorted_cons]
      refine ⟨?_, List.sorted_cons.mpr hs⟩
      intro c hc
      rcases List.mem_cons.mp hc with rfl | hct
      · exact hab
      · exact htrans a b c hab (hs.1 c hct)
    · rw [insertAsc, if_neg hab, List.sorted_cons]
      refine ⟨?_, ih hs.2⟩
      intro c hc
      rcases (mem_insertAsc le a c t).mp hc with h | hct
      · subst h
        exact (htot _ b).resolve_left hab
      · exact hs.1 c hct

theorem sorted_sortAsc (le : α → α → Bool)
    (htot : ∀ a b, le a b = true ∨ le b a = true)
    (htrans : ∀ a b c, le a b = true → le b c = true → le a c = true)
    (l : List α) :
    List.Sorted (fun x y => le x y = true) (sortAsc le l) := by
  induction l with
  | nil => simp [sortAsc]
  | cons a t ih => exact sorted_insertAsc le htot htrans a _ ih

theorem charListLe_iff (as bs : List Char) :
    charListLe as bs = true ↔ ¬ bs < as := by
  induction as generalizing bs with
  | nil =>
    cases bs with
    | nil => simp [charListLe, List.Lex.not_nil_right]
    | cons b t => simp [charListLe, List.Lex.not_nil_right]
  | cons a as ih =>
    cases bs with
    | nil =>
      simp only [charListLe, Bool.false_eq_true, false_iff, not_not]
      exact List.Lex.nil
    | cons b bs =>
      by_cases hab : a = b
      · subst hab
        rw [charListLe, if_pos rfl, ih]
        constructor
        · intro h hlt
          exact h (List.Lex.cons_iff.mp hlt)
        · intro h hlt
          exact h (List.Lex.cons hlt)
      · rw [charListLe, if_neg hab]
        simp only [decide_eq_true_eq]
        constructor
        · intro hlt h
          cases h with
          | cons h' => exact hab rfl
          | rel h' => exact absurd hlt (lt_asymm h')
        · intro h
          rcases lt_trichotomy a b with h' | h' | h'
          · exact h'
          · exact absurd h' hab
          · exact absurd (List.Lex.rel h') h

theorem strLeB_iff (a b : String) : strLeB a b = true ↔ a ≤ b := by
  rw [strLeB, charListLe_iff]
  constructor
  · intro h hba
    exact h (String.lt_iff_toList_lt.mp hba)
  · intro h hba
    exact h (String.lt_iff_toList_lt.mpr hba)

theorem strLeB_total (a b : String) :
    strLeB a b = true ∨ strLeB b a = true := by
  rcases le_total a b with h | h
  · exact Or.inl ((strLeB_iff a b).mpr h)
  · exact Or.inr ((strLeB_iff b a).mpr h)

theorem strLeB_trans (a b c : String)
    (hab : strLeB a b = true) (hbc : strLeB b c = true) :
    strLeB a c = true :=
  (strLeB_iff a c).mpr (le_trans ((strLeB_iff a b).mp hab)
    ((strLeB_iff b c).mp hbc))

/-- A January claim, approved, charge 90 (spec §8 Scenario 5 data). -/
def rowJanA : Row where
  claim_status := "approved"
  total_charge := some 90
  member_id := "m1"
  provider_id := "p1"
  provider_name := "P One"
  diagnosis_desc := "d1"
  claim_date := "2023-01-15"

/-- A January claim, denied, charge 10 (spec §8 Scenario 5 data). -/
def rowJanD : Row where
  claim_status := "denied"
  total_charge := some 10
  member_id := "m2"
  provider_id := "p1"
  provider_name := "P One"
  diagnosis_desc := "d1"
  claim_date := "2023-01-20"

/-- A February claim, approved, charge 50 (spec §8 Scenario 5 data). -/
def rowFebA : Row where
  claim_status := "approved"
  total_charge := some 50
  member_id := "m1"
  provider_id := "p2"
  provider_name := "P Two"
  diagnosis_desc := "d2"
  claim_date := "2023-02-10"

/-- C7: the monthly-trend result is ordered ascending by the seven-character
month key, the chart series passes the result's row order through unchanged
(`set_index` and column selection are order-preserving maps), and on the
Scenario 5 data — months 2023-01 and 2023-02 with charges 100 and 50 and
denied amounts 10 and 0, the February row listed first — the series keeps
the ascending month order exactly as the query returns it. -/
theorem c7_monthly_trend_order (rows : List Row) :
    List.Sorted (· ≤ ·) ((monthlyTrend rows).map TrendRow.month) ∧
    (chartSeries (monthlyTrend rows)).map (fun p => p.1) =
      (monthlyTrend rows).map TrendRow.month ∧
    monthlyTrend [rowFebA, rowJanA, rowJanD] =
      [{ month := "2023-01", charges := 100, denied_amt := 10 },
       { month := "2023-02", charges := 50, denied_amt := 0 }] ∧
    (chartSeries (monthlyTrend [rowFebA, rowJanA, rowJanD])).map
        (fun p => p.1) = ["2023-01", "2023-02"] := by
  have h3 : monthlyTrend [rowFebA, rowJanA, rowJanD] =
      [{ month := "2023-01", charges := 100, denied_amt := 10 },
       { month := "2023-02", charges := 50, denied_amt := 0 }] := by
    simp [monthlyTrend, rowFebA, rowJanA, rowJanD, monthKey, distinct,
      dedupFrom, sortAsc, insertAsc, strLeB, charListLe, isDenied]
    norm_num
  have h1 : (monthlyTrend rows).map TrendRow.month =
      sortAsc strLeB (distinct (rows.map monthKey)) := by
    rw [monthlyTrend, List.map_map]
    exact List.map_id _
  refine ⟨?_, ?_, h3, ?_⟩
  · rw [h1]
    exact (sorted_sortAsc strLeB strLeB_total strLeB_trans _).imp
      (fun h => (strLeB_iff _ _).mp h)
  · simp [chartSeries, List.map_map, Function.comp]
  · rw [h3]
    rfl

/-- C8: the KPI denial rate — denied-row count divided by the unfiltered
total row count — lies in `[0, 1]` for every non-empty table. -/
theorem c8_denial_rate_in_unit_interval (rows : List Row) (h : rows ≠ []) :
    0 ≤ denialRate rows ∧ denialRate rows ≤ 1 := by
  have hpos : 0 < (rows.length : ℚ) := by
    exact_mod_cast List.length_pos.mpr h
  constructor
  · exact div_nonneg (Nat.cast_nonneg _) (le_of_lt hpos)
  · rw [denialRate, div_le_one hpos]
    exact_mod_cast List.length_filter_le _ _

/-- Witness for C8: on a two-row table with one denied claim the denial
rate is within the unit interval. -/
theorem c8_denial_rate_in_unit_interval_witness :
    0 ≤ denialRate [rowJanD, rowJanA] ∧ denialRate [rowJanD, rowJanA] ≤ 1 :=
  c8_denial_rate_in_unit_interval _ (List.cons_ne_nil _ _)

/-- C3: on a zero-row table the KPI aggregate fails with the
division-by-zero query-execution error, and the render pass reaches exactly
the preview panel's empty-table placeholder before halting at the KPI
query: the preview placeholder above the failure point is rendered, and the
pass ends at the KPI panel's error. -/
theorem c3_zero_row_table (w : Warehouse) (fqn : String)
    (h : w.tableRows fqn = []) :
    evalKpi (w.tableRows fqn) =
      Except.error "QueryExecutionError: division by zero" ∧
    renderAnalytics w fqn =
      [Event.subheader ("Data from " ++ fqn),
       Event.query (previewSql fqn),
       Event.info "No data found.",
       Event.query (kpiSql fqn),
       Event.exn "QueryExecutionError: division by zero"] := by
  constructor
  · rw [h]
    rfl
  · simp only [renderAnalytics, h]
    rfl

/-- A warehouse whose selected table has zero rows. -/
def wEmptyTable : Warehouse where
  showCatalogs := { cols := ["catalog"], rows := [[some "main"]] }
  showSchemas := fun _ =>
    { cols := ["databaseName"], rows := [[some "claims"]] }
  showTables := fun _ _ =>
    { cols := ["database", "tableName"],
      rows := [[some "claims", some "claims_enriched"]] }
  tableRows := fun _ => []

/-- Witness for C3: the concrete zero-row table. -/
theorem c3_zero_row_table_witness :
    renderAnalytics wEmptyTable "main.claims.claims_enriched" =
      [Event.subheader "Data from main.claims.claims_enriched",
       Event.query (previewSql "main.claims.claims_enriched"),
       Event.info "No data found.",
       Event.query (kpiSql "main.claims.claims_enriched"),
       Event.exn "QueryExecutionError: division by zero"] :=
  (c3_zero_row_table wEmptyTable "main.claims.claims_enriched" rfl).2

/-- C4 counterexample: the KPI metrics row reads row 0 of its result
unconditionally (`kpi["total_claims"][0]`, `app.py` line 150), so an
empty-but-successful result raises instead of rendering an informational
placeholder — the claim fails for the ninth panel, the KPI metrics row. -/
theorem c4_counterexample_kpi_row_raises :
    renderKpiRow ([] : List KpiRow) =
      Except.error "IndexError: index 0 out of bounds" := rfl

/-- C4 amended: an empty-but-successful result renders the panel's own
neutral informational placeholder for the eight panels other than the KPI
metrics row — preview, status breakdown, monthly trend, denial reasons,
denial rate by provider, diagnoses by cost, providers by charge, and
outliers — while the KPI metrics row has no placeholder branch and fails
on an empty result. -/
theorem c4_empty_results_render_placeholders :
    previewPanel [] = Event.info "No data found." ∧
    statusPanel [] = Event.info "No claims status data." ∧
    trendPanel [] = Event.info "No trend data." ∧
    reasonsPanel [] = Event.info "No denials by reason." ∧
    providerRatePanel [] = Event.info "No denial/provider data." ∧
    diagPanel [] = Event.info "No diagnoses data." ∧
    provPanel [] = Event.info "No provider data." ∧
    outliersPanel [] = Event.info "No outlier claims found." ∧
    renderKpiRow [] = Except.error "IndexError: index 0 out of bounds" :=
  ⟨rfl, rfl, rfl, rfl, rfl, rfl, rfl, rfl, rfl⟩

theorem catalogStage_ok (w : Warehouse) (s : SelectorState)
    (ev : List Event) (cat : String)
    (h : catalogStage w s = (ev, some cat)) :
    ev = [Event.query "SHOW CATALOGS", Event.textInput "catalog_filter",
      Event.selectBox "catalog_select"
        (filterCandidates s.catalog_filter
          (dropna ((w.showCatalogs).col ((w.showCatalogs).cols.getD 0 ""))))
        0] := by
  simp only [catalogStage] at h
  split at h
  · simp at h
  · split at h
    · simp at h
    · injection h with h1 h2
      exact h1.symm

/-- A warehouse holding one catalog whose schema list is empty. -/
def wSchemaEmpty : Warehouse where
  showCatalogs := { cols := ["catalog"], rows := [[some "main"]] }
  showSchemas := fun _ => { cols := ["databaseName"], rows := [] }
  showTables := fun _ _ => { cols := ["database", "tableName"], rows := [] }
  tableRows := fun _ => []

/-- Blank widget state: empty filter texts, no stored selections. -/
def sBlank : SelectorState where
  catalog_filter := ""
  catalog_choice := none
  schema_filter := ""
  schema_choice := none
  table_filter := ""
  table_choice := none

/-- C5 counterexample: with a valid catalog whose schema list is empty, the
halt is announced by `st.error("No schemas found.")` (`app.py` line 96) —
an error notice, not a warning; no warning notice with that text appears
anywhere in the pass. -/
theorem c5_counterexample_schema_empty_notice_kind :
    renderPass wSchemaEmpty sBlank =
      [Event.query "SHOW CATALOGS", Event.textInput "catalog_filter",
       Event.selectBox "catalog_select" ["main"] 0,
       Event.query "SHOW SCHEMAS IN main",
       Event.errorNotice "No schemas found."] ∧
    Event.warningNotice "No schemas found." ∉ renderPass wSchemaEmpty sBlank := by
  constructor
  · decide
  · decide

/-- C5 amended: at every selector stage an empty candidate list and an
empty filtered set each halt the render pass after a user-visible notice —
an error notice at the catalog and schema stages for the empty-candidate
case, a warning at the table stage, and a warning for every empty-filter
case — and after the halt no later-stage widget is constructed and no
later-stage query is executed; in particular, when the schema list for a
valid catalog is empty, the pass ends at the schema-stage error and the
table stage never runs. -/
theorem c5_selector_halts_amended (w : Warehouse) (s : SelectorState)
    (cat sch c : String) :
    ((w.showCatalogs).isEmpty = true →
      renderPass w s = [Event.query "SHOW CATALOGS",
        Event.errorNotice "No catalogs available; check permissions."]) ∧
    ((w.showCatalogs).isEmpty = false →
      (filterCandidates s.catalog_filter
        (dropna ((w.showCatalogs).col
          ((w.showCatalogs).cols.getD 0 "")))).isEmpty = true →
      renderPass w s = [Event.query "SHOW CATALOGS",
        Event.textInput "catalog_filter",
        Event.warningNotice "No catalogs match."]) ∧
    ((w.showSchemas cat).isEmpty = true →
      schemaStage w s cat = ([Event.query ("SHOW SCHEMAS IN " ++ cat),
        Event.errorNotice "No schemas found."], none)) ∧
    ((w.showSchemas cat).isEmpty = false →
      (filterCandidates s.schema_filter
        (dropna ((w.showSchemas cat).col
          ((w.showSchemas cat).cols.getD 0 "")))).isEmpty = true →
      schemaStage w s cat = ([Event.query ("SHOW SCHEMAS IN " ++ cat),
        Event.textInput "schema_filter",
        Event.warningNotice "No schemas match."], none)) ∧
    ((w.showTables cat sch).isEmpty = true →
      tableStage w s cat sch =
        ([Event.query ("SHOW TABLES IN " ++ cat ++ "." ++ sch),
          Event.warningNotice "No tables in this schema."], none)) ∧
    ((w.showTables cat sch).isEmpty = false →
      tcol (w.showTables cat sch).cols = some c →
      (filterCandidates s.table_filter
        (dropna ((w.showTables cat sch).col c))).isEmpty = true →
      tableStage w s cat sch =
        ([Event.query ("SHOW TABLES IN " ++ cat ++ "." ++ sch),
          Event.textInput "table_filter",
          Event.warningNotice "No tables match."], none)) ∧
    (∀ ev cat1, catalogStage w s = (ev, some cat1) → cat1 ≠ "" →
      (w.showSchemas cat1).isEmpty = true →
      renderPass w s = ev ++ [Event.query ("SHOW SCHEMAS IN " ++ cat1),
        Event.errorNotice "No schemas found."] ∧
      Event.textInput "table_filter" ∉ renderPass w s ∧
      (∀ q, Event.query q ∈ renderPass w s →
        q = "SHOW CATALOGS" ∨ q = "SHOW SCHEMAS IN " ++ cat1)) := by
  refine ⟨?_, ?_, ?_, ?_, ?_, ?_, ?_⟩
  · intro h
    simp [renderPass, catalogStage, h]
  · intro h1 h2
    simp at h2
    simp [renderPass, catalogStage, h1, h2]
  · intro h
    simp [schemaStage, h]
  · intro h1 h2
    simp at h2
    simp [schemaStage, h1, h2]
  · intro h
    simp [tableStage, h]
  · intro h1 h2 h3
    simp at h3
    simp [tableStage, h1, h2, h3]
  · intro ev cat1 hcs hne hse
    have hshape := catalogStage_ok w s ev cat1 hcs
    have hrp : renderPass w s =
        ev ++ [Event.query ("SHOW SCHEMAS IN " ++ cat1),
          Event.errorNotice "No schemas found."] := by
      rw [renderPass, hcs]
      simp [hne, schemaStage, hse]
    refine ⟨hrp, ?_, ?_⟩
    · rw [hrp, hshape]
      simp
    · intro q hq
      rw [hrp, hshape] at hq
      simp [List.mem_cons] at hq
      tauto

/-- Witness for C5: the concrete empty-schema warehouse ends the pass at
the schema-stage error notice. -/
theorem c5_selector_halts_amended_witness :
    renderPass wSchemaEmpty sBlank =
      [Event.query "SHOW CATALOGS", Event.textInput "catalog_filter",
       Event.selectBox "catalog_select" ["main"] 0,
       Event.query "SHOW SCHEMAS IN main",
       Event.errorNotice "No schemas found."] :=
  ((c5_selector_halts_amended wSchemaEmpty sBlank "" "" "").2.2.2.2.2.2
    [Event.query "SHOW CATALOGS", Event.textInput "catalog_filter",
      Event.selectBox "catalog_select" ["main"] 0]
    "main" (by decide) (by decide) (by decide)).1

/-- C9: the render pass is a deterministic function of the warehouse
content and the widget state: two passes over equal inputs issue the same
SQL strings in the same order and produce the same trace of rendered
results. -/
theorem c9_render_pass_deterministic (w1 w2 : Warehouse)
    (s1 s2 : SelectorState) (hw : w1 = w2) (hs : s1 = s2) :
    queryLog w1 s1 = queryLog w2 s2 ∧ renderPass w1 s1 = renderPass w2 s2 := by
  subst hw
  subst hs
  exact ⟨rfl, rfl⟩

/-- Witness for C9: two runs over the same concrete warehouse and state. -/
theorem c9_render_pass_deterministic_witness :
    queryLog wSchemaEmpty sBlank = queryLog wSchemaEmpty sBlank ∧
    renderPass wSchemaEmpty sBlank = renderPass wSchemaEmpty sBlank :=
  c9_render_pass_deterministic wSchemaEmpty wSchemaEmpty sBlank sBlank rfl rfl

end PayerApp
